import Mathlib

/-!
Verification of the imagingDB ingestion/retrieval pipeline.

This file shallowly embeds the parts of the imagingDB code base that the
checked properties talk about:

* `imaging_db/filestorage/s3_storage.py` — the `DataStorage` class
  (`assert_unique_id`, `upload_frames`, per-object puts on an S3 bucket);
* `imaging_db/images/file_splitter.py` — the `FileSplitter` base class
  (constructor, read-only accessors, `_get_imname`, `set_global_meta`,
  `validate_global_meta`);
* `imaging_db/images/lif_splitter.py` — `LifSplitter.get_frames_and_metadata`;
* `imaging_db/cli/data_uploader.py` — `upload_data_and_update_db`, the
  per-row ingestion coordinator;
* `imaging_db/cli/data_downloader.py` — `download_data`.

The S3 bucket is modelled as an association list from keys to byte lists,
image serialization as an arbitrary pure function (the codec is out of the
repository's scope), and fallible puts through an explicit failure oracle.
Database modules that are not part of the source tree (`db_operations`,
`cli_utils`) are modelled from the specification where needed; such
definitions carry a `Modelled from the spec:` doc comment.
-/

namespace ImagingDB

/-- Raw byte contents of a stored object (codec output is opaque bytes). -/
abbrev Bytes := List Nat

/-- A single 2-D image plane, flattened; only identity of contents matters. -/
abbrev Frame := List Nat

/-- The S3 bucket contents: an association list from object keys to bytes.
Mirrors the bucket the `boto3` client in `s3_storage.py` talks to. -/
abbrev S3 := List (String × Bytes)

/-- `b` starts with `a` (computed over the character lists so that concrete
instances reduce inside the kernel). -/
def strHasPfx (a b : String) : Bool :=
  a.toList.isPrefixOf b.toList

/-- Whether an `Except` result is a success. -/
def isOkE {ε α : Type} : Except ε α → Bool
  | Except.ok _ => true
  | Except.error _ => false

/-- `list_objects_v2(Bucket, Prefix=pfx)['KeyCount']`: the number of stored
objects whose key starts with `pfx`. -/
def keyCount (s3 : S3) (pfx : String) : Nat :=
  s3.countP (fun kv => strHasPfx pfx kv.1)

/-- `DataStorage.assert_unique_id` (s3_storage.py lines 21-30): asserts that
listing the folder name as a prefix yields no key. -/
def assertUniqueId (s3 : S3) (folderName : String) : Except String Unit :=
  if keyCount s3 folderName = 0 then Except.ok ()
  else Except.error ("Key already exists on S3: " ++ folderName)

/-- `put_object(Bucket, Key, Body)`: store bytes under a key, replacing the
bytes of an existing entry with the same key. -/
def putObject (s3 : S3) (key : String) (body : Bytes) : S3 :=
  if s3.any (fun kv => kv.1 = key) then
    s3.map (fun kv => if kv.1 = key then (key, body) else kv)
  else
    (key, body) :: s3

/-- One iteration of the loop in `DataStorage.upload_frames` (s3_storage.py
lines 45-68): list the key; if it already exists, print and continue without
putting; otherwise serialize and put.  The `try`/`except` block catches every
exception, so a failed `put_object` (modelled by the oracle `putFails`) is
also swallowed and the loop continues. -/
def uploadOne (ser : Frame → Bytes) (putFails : String → Bool)
    (s3 : S3) (key : String) (im : Frame) : S3 :=
  if keyCount s3 key ≠ 0 then s3
  else if putFails key then s3
  else putObject s3 key (ser im)

/-- The body loop of `upload_frames` over `(file_name, frame)` pairs. -/
def uploadLoop (ser : Frame → Bytes) (putFails : String → Bool)
    (folderName : String) (s3 : S3) : List (String × Frame) → S3
  | [] => s3
  | (f, im) :: rest =>
      uploadLoop ser putFails folderName
        (uploadOne ser putFails s3 (folderName ++ "/" ++ f) im) rest

/-- `DataStorage.upload_frames` (s3_storage.py lines 32-68): asserts that the
number of file names matches the stack depth, then runs the per-key loop.
Per-item errors are swallowed inside the loop, so the only failure is the
initial length assertion. -/
def uploadFrames (ser : Frame → Bytes) (putFails : String → Bool)
    (s3 : S3) (folderName : String) (fileNames : List String)
    (imStack : List Frame) : Except String S3 :=
  if fileNames.length = imStack.length then
    Except.ok (uploadLoop ser putFails folderName s3 (fileNames.zip imStack))
  else
    Except.error "Number of file names doesn't match slices"

/-! ### Global metadata dictionaries -/

/-- A metadata value: a number or a string. -/
inductive GVal where
  | n (v : Nat)
  | s (v : String)
deriving DecidableEq, Repr

/-- A Python dict used for global metadata: keys mapped to a possibly-`None`
value (`Option.none` models Python `None`). -/
abbrev GlobalMeta := List (String × Option GVal)

/-- Dictionary lookup: `some v` when the key is present (with value `v`,
itself possibly `none`), `none` when the key is missing. -/
def gmLookup (gm : GlobalMeta) (k : String) : Option (Option GVal) :=
  (gm.find? (fun kv => kv.1 = k)).map (fun kv => kv.2)

/-- The ten required keys of `validate_global_meta`
(file_splitter.py lines 56-65). -/
def requiredGlobalKeys : List String :=
  ["s3_dir", "nbr_frames", "im_width", "im_height", "nbr_slices",
   "nbr_channels", "im_colors", "nbr_timepoints", "nbr_positions",
   "bit_depth"]

/-- `key_valid` in `validate_global_meta`: the key is in the dict and its
value is not `None`. -/
def keyValid (gm : GlobalMeta) (k : String) : Bool :=
  match gmLookup gm k with
  | some (some _) => true
  | _ => false

/-- `validate_global_meta` (file_splitter.py lines 49-73): succeeds iff every
required key is present with a non-`None` value. -/
def validateGlobalMeta (gm : GlobalMeta) : Bool :=
  requiredGlobalKeys.all (fun k => keyValid gm k)

/-! ### Frame metadata rows and the splitter state -/

/-- One row of `frames_meta` (columns as in `DF_NAMES`). -/
structure FrameRow where
  channel_idx : Nat
  slice_idx : Nat
  time_idx : Nat
  pos_idx : Nat
  channel_name : Option String
  file_name : String
deriving DecidableEq, Repr

/-- The mutable attribute record of a `FileSplitter` instance
(file_splitter.py lines 79-110).  Attributes initialized to `None` in
`__init__` are `Option` fields. -/
structure SplitterState where
  data_path : String
  s3_dir : String
  file_format : String
  int2str_len : Nat
  im_stack : Option (List Frame)
  frames_meta : Option (List FrameRow)
  frames_json : Option (List GlobalMeta)
  global_meta : Option GlobalMeta
  global_json : Option GlobalMeta
  frame_shape : Option (Nat × Nat)
  im_colors : Option Nat
  bit_depth : Option String
deriving DecidableEq, Repr

/-- The attribute record right after the assignments in
`FileSplitter.__init__`, before the uniqueness check. -/
def initSplitterState (dataPath s3Dir fileFormat : String)
    (int2strLen : Nat) : SplitterState :=
  { data_path := dataPath
    s3_dir := s3Dir
    file_format := fileFormat
    int2str_len := int2strLen
    im_stack := none
    frames_meta := none
    frames_json := none
    global_meta := none
    global_json := none
    frame_shape := none
    im_colors := none
    bit_depth := none }

/-- Modelled from the spec: the splitter construction the ingestion
coordinator performs (§4.5 upload discipline — with `overwrite=false` the
splitter runs `assert_unique` once at construction and construction fails
if it fails; with `overwrite=true` the check is skipped).  The splitter
classes the coordinator actually instantiates come through
`aux_utils.get_splitter_class`, which is not under src/; the in-src
`FileSplitter.__init__` generation is embedded separately as
`mkFileSplitterSrc`. -/
def mkFileSplitter (s3 : S3) (dataPath s3Dir fileFormat : String)
    (int2strLen : Nat) (override : Bool) : Except String SplitterState :=
  let st := initSplitterState dataPath s3Dir fileFormat int2strLen
  if override then Except.ok st
  else
    match assertUniqueId s3 s3Dir with
    | Except.ok _ => Except.ok st
    | Except.error e => Except.error e

/-- The `DataStorage` construction as written at file_splitter.py lines
106-108: the call passes the keyword `s3_dir`, but the in-src
`DataStorage.__init__` (s3_storage.py lines 11-19) accepts only
`folder_name`, so the call raises `TypeError` unconditionally. -/
def mkDataStorageKw (_s3Dir : String) : Except String Unit :=
  Except.error "TypeError: unexpected keyword argument s3_dir"

/-- `FileSplitter.__init__` as frozen in src (file_splitter.py lines
79-110): the attribute assignments happen, then line 106 constructs the
`DataStorage` client with the keyword `s3_dir` — which raises `TypeError`
against the in-src `DataStorage.__init__` — so the `override` check and
`assert_unique_id` at lines 109-110 are never reached and every
construction fails. -/
def mkFileSplitterSrc (s3 : S3) (dataPath s3Dir fileFormat : String)
    (int2strLen : Nat) (override : Bool) : Except String SplitterState :=
  let st := initSplitterState dataPath s3Dir fileFormat int2strLen
  match mkDataStorageKw s3Dir with
  | Except.error e => Except.error e
  | Except.ok _ =>
    if override then Except.ok st
    else
      match assertUniqueId s3 s3Dir with
      | Except.ok _ => Except.ok st
      | Except.error e => Except.error e

/-- `FileSplitter.get_imstack`: asserts the stack was assigned. -/
def get_imstack (st : SplitterState) : Except String (List Frame) :=
  match st.im_stack with
  | none => Except.error "Image stack has not been assigned yet"
  | some v => Except.ok v

/-- `FileSplitter.get_global_meta`: asserts the metadata was assigned. -/
def get_global_meta (st : SplitterState) : Except String GlobalMeta :=
  match st.global_meta with
  | none => Except.error "global_meta has no values yet"
  | some v => Except.ok v

/-- `FileSplitter.get_global_json`: asserts the metadata was assigned. -/
def get_global_json (st : SplitterState) : Except String GlobalMeta :=
  match st.global_json with
  | none => Except.error "global_json has no values yet"
  | some v => Except.ok v

/-- `FileSplitter.get_frames_meta`: asserts the metadata was assigned. -/
def get_frames_meta (st : SplitterState) : Except String (List FrameRow) :=
  match st.frames_meta with
  | none => Except.error "frames_meta has no values yet"
  | some v => Except.ok v

/-- `FileSplitter.get_frames_json`: asserts the metadata was assigned. -/
def get_frames_json (st : SplitterState) : Except String (List GlobalMeta) :=
  match st.frames_json with
  | none => Except.error "frames_json has no values yet"
  | some v => Except.ok v

/-! ### File names -/

/-- Python `str.zfill`: left-pad with `'0'` up to the requested width (a
string at least that long is returned unchanged). -/
def zfill (s : String) (width : Nat) : String :=
  String.mk (List.replicate (width - s.length) '0') ++ s

/-- `FileSplitter._get_imname` (file_splitter.py lines 174-185): concatenate
the four zero-filled indices with the instance's `file_format`. -/
def getImname (int2strLen : Nat) (fileFormat : String) (row : FrameRow) :
    String :=
  "im_c" ++ zfill (Nat.repr row.channel_idx) int2strLen ++
  "_z" ++ zfill (Nat.repr row.slice_idx) int2strLen ++
  "_t" ++ zfill (Nat.repr row.time_idx) int2strLen ++
  "_p" ++ zfill (Nat.repr row.pos_idx) int2strLen ++
  fileFormat

/-- The Python format spec `03` the specification's file-name sentence uses:
decimal rendering, zero-padded to a minimum width of 3. -/
def specPad3 (n : Nat) : String :=
  let s := Nat.repr n
  if 3 ≤ s.length then s
  else String.mk (List.replicate (3 - s.length) '0') ++ s

/-- The file name the specification prescribes for a frame (written from the
spec's words, to be compared with `getImname`): each of the four indices
rendered with format spec `03` and extension `png`. -/
def specFrameFileName (c z t p : Nat) : String :=
  "im_c" ++ specPad3 c ++ "_z" ++ specPad3 z ++ "_t" ++ specPad3 t ++
    "_p" ++ specPad3 p ++ ".png"

/-! ### Global metadata derivation -/

/-- The dictionary literal assigned to `self.global_meta` in
`FileSplitter.set_global_meta` (file_splitter.py lines 196-207); the four
`nbr_*` entries are the counts of distinct values in the corresponding
`frames_meta` column (`len(np.unique(...))`). -/
def buildGlobalMeta (s3Dir : String) (nbrFrames : Nat) (shape : Nat × Nat)
    (imColors : Option Nat) (bitDepth : Option String)
    (rows : List FrameRow) : GlobalMeta :=
  [("s3_dir", some (GVal.s s3Dir)),
   ("nbr_frames", some (GVal.n nbrFrames)),
   ("im_height", some (GVal.n shape.1)),
   ("im_width", some (GVal.n shape.2)),
   ("im_colors", imColors.map GVal.n),
   ("bit_depth", bitDepth.map GVal.s),
   ("nbr_slices", some (GVal.n (rows.map FrameRow.slice_idx).dedup.length)),
   ("nbr_channels", some (GVal.n (rows.map FrameRow.channel_idx).dedup.length)),
   ("nbr_timepoints", some (GVal.n (rows.map FrameRow.time_idx).dedup.length)),
   ("nbr_positions", some (GVal.n (rows.map FrameRow.pos_idx).dedup.length))]

/-- `FileSplitter.set_global_meta` (file_splitter.py lines 187-208): asserts
`frame_shape` is set, builds the global dictionary from the instance
attributes and `frames_meta`, and runs `validate_global_meta` on it.
Reading a column of an unassigned `frames_meta` also raises, modelled as an
error here. -/
def setGlobalMeta (st : SplitterState) (nbrFrames : Nat) :
    Except String SplitterState :=
  match st.frame_shape with
  | none => Except.error "Frame shape is empty"
  | some shape =>
    match st.frames_meta with
    | none => Except.error "frames_meta is not set"
    | some rows =>
      let gm := buildGlobalMeta st.s3_dir nbrFrames shape st.im_colors
        st.bit_depth rows
      if validateGlobalMeta gm then
        Except.ok { st with global_meta := some gm }
      else Except.error "Not all required metadata keys are present"

/-! ### The lif splitter -/

/-- The metadata row written for series `i` in
`LifSplitter.get_frames_and_metadata` (lif_splitter.py lines 101-108):
channel, slice and time index 0, `pos_idx = i`, file name from
`_get_imname` over those indices. -/
def lifMetaRow (int2strLen : Nat) (fileFormat : String) (i : Nat) : FrameRow :=
  let row : FrameRow :=
    { channel_idx := 0, slice_idx := 0, time_idx := 0, pos_idx := i,
      channel_name := none, file_name := "" }
  { row with file_name := getImname int2strLen fileFormat row }

/-- The `frames_meta` table the lif splitter builds for `n` series. -/
def lifFramesMeta (int2strLen : Nat) (fileFormat : String) (n : Nat) :
    List FrameRow :=
  (List.range n).map (lifMetaRow int2strLen fileFormat)

/-- `LifSplitter.set_frame_info` (lif_splitter.py lines 15-36): record the
frame shape, color count and bit depth reported by the reader, asserting
the bit depth is uint8 or uint16. -/
def lifSetFrameInfo (st : SplitterState) (imShape : Nat × Nat)
    (imColors : Nat) (bitDepth : String) : Except String SplitterState :=
  let st' := { st with im_colors := some imColors,
                       frame_shape := some imShape,
                       bit_depth := some bitDepth }
  if bitDepth = "uint8" ∨ bitDepth = "uint16" then Except.ok st'
  else Except.error ("Only support uint8 and uint16, not " ++ bitDepth)

/-- `LifSplitter.get_frames_and_metadata` (lif_splitter.py lines 39-111):
set the frame info from the first series, record the file origin, fill
`frames_meta` row `i` with indices `(0, 0, 0, i)` for each of the `n`
series, and derive the global metadata.  The pixel data and the
adapter-reported variable metadata do not influence the indices and enter
as the opaque `stack` (per-series dictionaries abstracted to empty). -/
def lifGetFramesAndMetadata (st : SplitterState) (imShape : Nat × Nat)
    (imColors : Nat) (bitDepth : String) (stack : List Frame) (n : Nat) :
    Except String SplitterState :=
  match lifSetFrameInfo st imShape imColors bitDepth with
  | Except.error e => Except.error e
  | Except.ok st1 =>
    let st2 := { st1 with
      im_stack := some stack
      global_json := some [("file_origin", some (GVal.s st.data_path))]
      frames_meta := some (lifFramesMeta st.int2str_len st.file_format n)
      frames_json := some (List.replicate n []) }
    setGlobalMeta st2 n

/-! ### The catalog (spec-modelled where `db_operations.py` is absent) -/

/-- One dataset's catalog footprint: the DataSet serial together with its
FramesGlobal dictionary and Frames rows. -/
structure CatalogEntry where
  dataset_serial : String
  global_meta : GlobalMeta
  frames_rows : List FrameRow
deriving DecidableEq, Repr

/-- The relational catalog: the committed frame datasets, in insert order. -/
abbrev Catalog := List CatalogEntry

/-- Modelled from the spec: `db_operations.py` is not in the source tree.
§4.3 `assert_unique_id(session, serial)`: fails if any DataSet with that
serial exists. -/
def dbAssertUniqueId (cat : Catalog) (serial : String) : Except String Unit :=
  if cat.any (fun e => e.dataset_serial = serial) then
    Except.error ("Dataset already exists in database: " ++ serial)
  else Except.ok ()

/-- Modelled from the spec: `insert_frames` of the missing
`db_operations.py`.  §4.3: within the caller's open transaction, insert
DataSet, FramesGlobal and all Frames rows, honoring the serial-uniqueness
invariant §3.3(1), so it fails when the serial is already present. -/
def insertFrames (cat : Catalog) (serial : String) (gm : GlobalMeta)
    (rows : List FrameRow) : Except String Catalog :=
  if cat.any (fun e => e.dataset_serial = serial) then
    Except.error ("Dataset already exists in database: " ++ serial)
  else Except.ok (cat ++ [⟨serial, gm, rows⟩])

/-- Modelled from the spec: `session_scope` of the missing
`db_operations.py` (§4.3: commit on normal exit, rollback on any error
path), combined with the `try/except AssertionError` around the
`insert_frames` call in `data_uploader.py` lines 207-220: on an insert
error the transaction is rolled back — the catalog is unchanged — and the
error is printed rather than propagated. -/
def insertFramesCaught (cat : Catalog) (serial : String) (gm : GlobalMeta)
    (rows : List FrameRow) : Catalog :=
  match insertFrames cat serial gm rows with
  | Except.ok c => c
  | Except.error _ => cat

/-! ### Dataset identifiers -/

/-- Helper for `splitDash`: walk the characters, cutting at `'-'`. -/
def splitDashAux : List Char → List Char → List String
  | [], acc => [String.mk acc.reverse]
  | c :: rest, acc =>
    if c = '-' then String.mk acc.reverse :: splitDashAux rest []
    else splitDashAux rest (c :: acc)

/-- Split a string at `'-'` separators (Python `split('-')`). -/
def splitDash (s : String) : List String :=
  splitDashAux s.toList []

/-- `s` consists of exactly `len` decimal digits. -/
def isDigits (s : String) (len : Nat) : Bool :=
  s.length = len && s.toList.all Char.isDigit

/-- Decimal value of a digit string. -/
def digitsVal (s : String) : Nat :=
  s.toList.foldl (fun a c => 10 * a + (c.toNat - '0'.toNat)) 0

/-- Modelled from the spec: `cli_utils.validate_id` is not in the source
tree.  §3.1: the serial is `<PREFIX>-YYYY-MM-DD-HH-MM-SS-<NNNN>` where
PREFIX is 2-4 uppercase letters/digits, the date-time is parseable as a
wall clock, and NNNN is four digits. -/
def validateId (serial : String) : Except String Unit :=
  match splitDash serial with
  | [pfx, yyyy, mo, dd, hh, mi, ss, nnnn] =>
    if (2 ≤ pfx.length && pfx.length ≤ 4
        && pfx.toList.all (fun c => c.isUpper || c.isDigit)
        && isDigits yyyy 4 && isDigits mo 2 && isDigits dd 2
        && isDigits hh 2 && isDigits mi 2 && isDigits ss 2
        && isDigits nnnn 4
        && 1 ≤ digitsVal mo && digitsVal mo ≤ 12
        && 1 ≤ digitsVal dd && digitsVal dd ≤ 31
        && digitsVal hh ≤ 23 && digitsVal mi ≤ 59
        && digitsVal ss ≤ 59) then
      Except.ok ()
    else Except.error ("Invalid ID: " ++ serial)
  | _ => Except.error ("Invalid ID: " ++ serial)

/-! ### The ingestion coordinator -/

/-- The deterministic products of one splitter run over a fixed source:
the plane file names, the plane stack, the per-plane metadata rows and the
derived global metadata.  `upload_data_and_update_db` consumes these
through the splitter accessors. -/
structure SourceData where
  fileNames : List String
  stack : List Frame
  framesMeta : List FrameRow
  globalMeta : GlobalMeta
deriving Repr

/-- One row of the batch descriptor CSV. -/
structure UploadRow where
  dataset_id : String
  file_name : String
deriving Repr

/-- The storage and catalog effects whose relative order matters. -/
inductive Event where
  | putPlane (key : String)
  | insertRows (serial : String)
deriving DecidableEq, Repr

/-- The externally observable state the coordinator mutates. -/
structure PipelineState where
  s3 : S3
  cat : Catalog
deriving DecidableEq, Repr

/-- The frames path of one batch row in `upload_data_and_update_db`
(data_uploader.py lines 150-220): validate the serial (re-raising on
failure), check catalog uniqueness unless `overwrite`, construct the
splitter (which checks storage uniqueness unless `overwrite`), run
`get_frames_and_metadata` — which uploads the planes — and finally insert
the catalog rows inside a session scope, with `AssertionError` caught.
Returns the new state and the ordered list of storage/catalog effects. -/
def processFramesRow (ser : Frame → Bytes) (putFails : String → Bool)
    (overwrite : Bool) (row : UploadRow) (src : SourceData)
    (st : PipelineState) : Except String (PipelineState × List Event) :=
  match validateId row.dataset_id with
  | Except.error e => Except.error e
  | Except.ok _ =>
    let storageDir := "raw_frames/" ++ row.dataset_id
    let dbCheck : Except String Unit :=
      if overwrite then Except.ok ()
      else dbAssertUniqueId st.cat row.dataset_id
    match dbCheck with
    | Except.error e => Except.error e
    | Except.ok _ =>
      match mkFileSplitter st.s3 row.file_name storageDir ".png" 3 overwrite with
      | Except.error e => Except.error e
      | Except.ok _ =>
        match uploadFrames ser putFails st.s3 storageDir src.fileNames
            src.stack with
        | Except.error e => Except.error e
        | Except.ok s3' =>
          let cat' := insertFramesCaught st.cat row.dataset_id src.globalMeta
            src.framesMeta
          Except.ok (⟨s3', cat'⟩,
            src.fileNames.map (fun f => Event.putPlane (storageDir ++ "/" ++ f))
              ++ [Event.insertRows row.dataset_id])

/-- The row loop of `upload_data_and_update_db` (data_uploader.py lines
150-220): rows are processed in order; an uncaught error — invalid id,
duplicate id, storage non-uniqueness, upload length mismatch — propagates
and aborts the whole run. -/
def uploadBatch (ser : Frame → Bytes) (putFails : String → Bool)
    (overwrite : Bool) :
    List (UploadRow × SourceData) → PipelineState →
    Except String PipelineState
  | [], st => Except.ok st
  | (row, src) :: rest, st =>
    match processFramesRow ser putFails overwrite row src st with
    | Except.error e => Except.error e
    | Except.ok (st', _) => uploadBatch ser putFails overwrite rest st'

/-! ### The downloader -/

/-- How a `download_data` call ends. -/
inductive DlStatus where
  | done
  | folderExists
  | nothingToDo
  | datasetNotFound
deriving DecidableEq, Repr

/-- The command-line arguments of `download_data`. -/
structure DownloadArgs where
  id : String
  dest : String
  metadata : Bool
  download : Bool
deriving Repr

/-- What a `download_data` call did to the local filesystem: the directory
list afterwards, the paths of the files it wrote, and how it ended. -/
structure DownloadResult where
  dirs : List String
  written : List String
  status : DlStatus
deriving DecidableEq, Repr

/-- `download_data` (data_downloader.py lines 63-138): an invalid serial is
only printed; then `os.makedirs(dest_folder, exist_ok=False)` — if the
destination subfolder already exists the function prints and returns
before touching the database, writing any metadata file or downloading any
plane.  Otherwise the folder is created and, per the `metadata`/`download`
flags, the metadata sidecars and the planes are written into it.  Catalog
access through the missing `db_session` module is modelled from the spec
(§4.8). -/
def downloadData (cat : Catalog) (dirs : List String) (args : DownloadArgs) :
    DownloadResult :=
  let destFolder := args.dest ++ "/" ++ args.id
  if destFolder ∈ dirs then ⟨dirs, [], DlStatus.folderExists⟩
  else
    let dirs' := destFolder :: dirs
    match cat.find? (fun e => e.dataset_serial = args.id) with
    | none => ⟨dirs', [], DlStatus.datasetNotFound⟩
    | some entry =>
      if args.metadata = false then
        if args.download = false then ⟨dirs', [], DlStatus.nothingToDo⟩
        else
          ⟨dirs',
           entry.frames_rows.map (fun r => destFolder ++ "/" ++ r.file_name),
           DlStatus.done⟩
      else
        let metaFiles := [destFolder ++ "/global_metadata.json",
                          destFolder ++ "/frames_meta.csv"]
        let planes :=
          if args.download then
            entry.frames_rows.map (fun r => destFolder ++ "/" ++ r.file_name)
          else []
        ⟨dirs', metaFiles ++ planes, DlStatus.done⟩

/-! ## Theorems -/

/-- The zero-fill `_get_imname` applies to a decimal index agrees with the
format spec `03` the specification uses. -/
theorem zfill_repr_eq_specPad3 (n : Nat) : zfill (Nat.repr n) 3 = specPad3 n := by
  unfold zfill specPad3
  by_cases h : 3 ≤ (Nat.repr n).length
  · rw [Nat.sub_eq_zero_of_le h]
    simp only [if_pos h]
    rfl
  · simp only [if_neg h]

/-- Claim C5: for every frame-metadata row with non-negative integer
indices, `_get_imname` (at the coordinator's `int2str_len = 3` and
`file_format = ".png"`) produces exactly
`"im_c{c:03}_z{z:03}_t{t:03}_p{p:03}.png"`. -/
theorem claim_C5_filename_determinism (c z t p : Nat) (cn : Option String)
    (fn : String) :
    getImname 3 ".png"
        { channel_idx := c, slice_idx := z, time_idx := t, pos_idx := p,
          channel_name := cn, file_name := fn }
      = specFrameFileName c z t p := by
  unfold getImname specFrameFileName
  rw [zfill_repr_eq_specPad3, zfill_repr_eq_specPad3, zfill_repr_eq_specPad3,
    zfill_repr_eq_specPad3]

/-- Claim C7 describes the constructor's intent, but in the frozen source
every construction of the in-src `FileSplitter` fails with a `TypeError`:
line 106 passes the keyword `s3_dir` to a `DataStorage` constructor that
accepts only `folder_name`, before the `override`/`assert_unique_id`
logic runs.  In particular construction fails even with `overwrite=true`
and even over an empty store with no key under the storage prefix,
contradicting the claimed behavior in both directions. -/
theorem claim_C7_code_bug (s3 : S3) (dataPath s3Dir fileFormat : String)
    (int2strLen : Nat) (override : Bool) :
    mkFileSplitterSrc s3 dataPath s3Dir fileFormat int2strLen override
      = Except.error "TypeError: unexpected keyword argument s3_dir"
    ∧ isOkE (mkFileSplitterSrc [] "a.tif"
        "raw_frames/TEST-2005-06-09-20-00-00-1000" ".png" 3 true) = false
    ∧ keyCount [] "raw_frames/TEST-2005-06-09-20-00-00-1000" = 0 :=
  ⟨rfl, rfl, rfl⟩

/-- Claim C9: each read-only accessor of the splitter fails while its
attribute is unassigned and returns exactly the assigned value once it is
assigned. -/
theorem claim_C9_accessor_preconditions (st : SplitterState)
    (v1 : List Frame) (v2 : List FrameRow) (v3 : List GlobalMeta)
    (v4 v5 : GlobalMeta) :
    (isOkE (get_imstack { st with im_stack := none }) = false
      ∧ get_imstack { st with im_stack := some v1 } = Except.ok v1)
    ∧ (isOkE (get_frames_meta { st with frames_meta := none }) = false
      ∧ get_frames_meta { st with frames_meta := some v2 } = Except.ok v2)
    ∧ (isOkE (get_frames_json { st with frames_json := none }) = false
      ∧ get_frames_json { st with frames_json := some v3 } = Except.ok v3)
    ∧ (isOkE (get_global_meta { st with global_meta := none }) = false
      ∧ get_global_meta { st with global_meta := some v4 } = Except.ok v4)
    ∧ (isOkE (get_global_json { st with global_json := none }) = false
      ∧ get_global_json { st with global_json := some v5 } = Except.ok v5) :=
  ⟨⟨rfl, rfl⟩, ⟨rfl, rfl⟩, ⟨rfl, rfl⟩, ⟨rfl, rfl⟩, ⟨rfl, rfl⟩⟩

/-- Claim C8: when the destination subfolder `<dest>/<serial>` already
exists, `download_data` stops with the folder-exists outcome before
writing any metadata file or downloading any plane, and the directory
list is unchanged. -/
theorem claim_C8_destination_freshness (cat : Catalog) (dirs : List String)
    (args : DownloadArgs) (h : (args.dest ++ "/" ++ args.id) ∈ dirs) :
    downloadData cat dirs args
      = { dirs := dirs, written := [], status := DlStatus.folderExists } := by
  unfold downloadData
  rw [if_pos h]

/-- Witness for C8 at a concrete pre-existing destination. -/
theorem claim_C8_witness :
    ("dest" ++ "/" ++ "SER-2005-06-09-20-00-00-1000")
        ∈ ["dest/SER-2005-06-09-20-00-00-1000"]
    ∧ downloadData [] ["dest/SER-2005-06-09-20-00-00-1000"]
        { id := "SER-2005-06-09-20-00-00-1000", dest := "dest",
          metadata := true, download := true }
      = { dirs := ["dest/SER-2005-06-09-20-00-00-1000"], written := [],
          status := DlStatus.folderExists } :=
  ⟨List.mem_singleton.mpr rfl,
   claim_C8_destination_freshness _ _ _ (List.mem_singleton.mpr rfl)⟩

/-- Counterexample to claim C4 as stated: with a transfer that fails on
every attempt (so certainly after any retry budget), `upload_frames`
still reports success — the failed plane is silently skipped, nothing is
stored, and no error is surfaced. -/
theorem claim_C4_counterexample :
    uploadFrames (fun f => f) (fun _ => true) [] "raw_frames/X" ["f.png"]
        [[5]]
      = Except.ok [] := rfl

/-- Claim C4 as amended: `upload_frames` does not retry and never surfaces
per-item transfer failures — a failed put leaves storage unchanged and the
loop continues — and the operation fails exactly when the number of file
names differs from the stack depth. -/
theorem claim_C4_amended (ser : Frame → Bytes) (putFails : String → Bool)
    (s3 : S3) (folderName : String) (fileNames : List String)
    (imStack : List Frame) :
    (isOkE (uploadFrames ser putFails s3 folderName fileNames imStack)
        = (fileNames.length == imStack.length))
    ∧ (∀ (s : S3) (key : String) (im : Frame),
        keyCount s key = 0 → putFails key = true →
        uploadOne ser putFails s key im = s) := by
  constructor
  · unfold uploadFrames
    by_cases h : fileNames.length = imStack.length
    · simp [h, isOkE]
    · simp [h, isOkE]
  · intro s key im h0 hf
    unfold uploadOne
    rw [if_neg (by simp [h0]), if_pos hf]

/-- Witness for the amended C4 at concrete inputs. -/
theorem claim_C4_amended_witness :
    isOkE (uploadFrames (fun f => f) (fun _ => true) [] "raw_frames/X"
        ["a.png"] [[1]]) = true
    ∧ uploadOne (fun f => f) (fun _ => true) [] "raw_frames/X/a.png" [1]
        = [] := by
  refine ⟨?_, ?_⟩
  · have h := (claim_C4_amended (fun f => f) (fun _ => true) []
      "raw_frames/X" ["a.png"] [[1]]).1
    simpa using h
  · exact (claim_C4_amended (fun f => f) (fun _ => true) [] "raw_frames/X"
      [] []).2 [] "raw_frames/X/a.png" [1] rfl rfl

/-- Claim C6: with the frame info set and `frames_meta` populated,
`set_global_meta(nbr_frames)` succeeds and its dictionary maps each
`nbr_*` key to the count of distinct values of the corresponding index
column, records the given `nbr_frames` together with `im_height`,
`im_width`, `im_colors`, `bit_depth` and the storage directory, and
`validate_global_meta` — which fails exactly when one of the ten required
keys is missing or `None` — passes on it. -/
theorem claim_C6_global_meta_derivation (st : SplitterState) (n h w ic : Nat)
    (bd : String) (rows : List FrameRow)
    (hsh : st.frame_shape = some (h, w)) (hic : st.im_colors = some ic)
    (hbd : st.bit_depth = some bd) (hrows : st.frames_meta = some rows) :
    (∃ gm : GlobalMeta,
      setGlobalMeta st n = Except.ok { st with global_meta := some gm }
      ∧ gm = buildGlobalMeta st.s3_dir n (h, w) (some ic) (some bd) rows
      ∧ gmLookup gm "s3_dir" = some (some (GVal.s st.s3_dir))
      ∧ gmLookup gm "nbr_frames" = some (some (GVal.n n))
      ∧ gmLookup gm "im_height" = some (some (GVal.n h))
      ∧ gmLookup gm "im_width" = some (some (GVal.n w))
      ∧ gmLookup gm "im_colors" = some (some (GVal.n ic))
      ∧ gmLookup gm "bit_depth" = some (some (GVal.s bd))
      ∧ gmLookup gm "nbr_slices"
          = some (some (GVal.n (rows.map FrameRow.slice_idx).dedup.length))
      ∧ gmLookup gm "nbr_channels"
          = some (some (GVal.n (rows.map FrameRow.channel_idx).dedup.length))
      ∧ gmLookup gm "nbr_timepoints"
          = some (some (GVal.n (rows.map FrameRow.time_idx).dedup.length))
      ∧ gmLookup gm "nbr_positions"
          = some (some (GVal.n (rows.map FrameRow.pos_idx).dedup.length))
      ∧ validateGlobalMeta gm = true)
    ∧ (∀ gm : GlobalMeta, validateGlobalMeta gm = false
        ↔ ∃ k ∈ requiredGlobalKeys, keyValid gm k = false) := by
  constructor
  · refine ⟨buildGlobalMeta st.s3_dir n (h, w) (some ic) (some bd) rows,
      ?_, rfl, rfl, rfl, rfl, rfl, rfl, rfl, rfl, rfl, rfl, rfl, rfl⟩
    have hv : validateGlobalMeta
        (buildGlobalMeta st.s3_dir n (h, w) (some ic) (some bd) rows)
          = true := rfl
    simp only [setGlobalMeta, hsh, hrows, hic, hbd, hv, if_true]
  · intro gm
    simp [validateGlobalMeta, List.all_eq_false]

/-- The concrete frame rows used to witness C6. -/
def c6Rows : List FrameRow :=
  [⟨0, 0, 0, 0, none, "a.png"⟩, ⟨1, 0, 0, 0, none, "b.png"⟩]

/-- The concrete splitter state used to witness C6: frame info set,
`frames_meta` populated. -/
def c6State : SplitterState :=
  { initSplitterState "p.tif" "raw_frames/TEST-2005-06-09-20-00-00-1000"
      ".png" 3 with
    frame_shape := some (10, 15)
    im_colors := some 1
    bit_depth := some "uint16"
    frames_meta := some c6Rows }

/-- Witness for C6: on a populated concrete state, `set_global_meta`
succeeds. -/
theorem claim_C6_witness : isOkE (setGlobalMeta c6State 2) = true := by
  obtain ⟨⟨gm, h1, -⟩, -⟩ :=
    claim_C6_global_meta_derivation c6State 2 10 15 1 "uint16" c6Rows
      rfl rfl rfl rfl
  rw [h1]
  rfl

/-- The `pos_idx` column the lif splitter writes is `0, 1, …, n-1`. -/
theorem lifFramesMeta_map_pos (l : Nat) (f : String) (n : Nat) :
    (lifFramesMeta l f n).map FrameRow.pos_idx = List.range n := by
  unfold lifFramesMeta
  rw [List.map_map]
  have he : (FrameRow.pos_idx ∘ lifMetaRow l f) = id := funext (fun _ => rfl)
  rw [he, List.map_id]

/-- The `channel_idx` column the lif splitter writes is all zero. -/
theorem lifFramesMeta_map_channel (l : Nat) (f : String) (n : Nat) :
    (lifFramesMeta l f n).map FrameRow.channel_idx = List.replicate n 0 := by
  unfold lifFramesMeta
  rw [List.map_map]
  have he : (FrameRow.channel_idx ∘ lifMetaRow l f) = Function.const Nat 0 :=
    funext (fun _ => rfl)
  rw [he, List.map_const, List.length_range]

/-- The `slice_idx` column the lif splitter writes is all zero. -/
theorem lifFramesMeta_map_slice (l : Nat) (f : String) (n : Nat) :
    (lifFramesMeta l f n).map FrameRow.slice_idx = List.replicate n 0 := by
  unfold lifFramesMeta
  rw [List.map_map]
  have he : (FrameRow.slice_idx ∘ lifMetaRow l f) = Function.const Nat 0 :=
    funext (fun _ => rfl)
  rw [he, List.map_const, List.length_range]

/-- The `time_idx` column the lif splitter writes is all zero. -/
theorem lifFramesMeta_map_time (l : Nat) (f : String) (n : Nat) :
    (lifFramesMeta l f n).map FrameRow.time_idx = List.replicate n 0 := by
  unfold lifFramesMeta
  rw [List.map_map]
  have he : (FrameRow.time_idx ∘ lifMetaRow l f) = Function.const Nat 0 :=
    funext (fun _ => rfl)
  rw [he, List.map_const, List.length_range]

/-- Claim C10: for a lif source read as `n` series frames (`n ≥ 1`),
`get_frames_and_metadata` assigns row `i` the indices `channel_idx = 0`,
`slice_idx = 0`, `time_idx = 0`, `pos_idx = i`, and the derived global
metadata has `nbr_positions = n` and
`nbr_channels = nbr_slices = nbr_timepoints = 1`. -/
theorem claim_C10_lif_index_assignment (st : SplitterState) (sh : Nat × Nat)
    (ic : Nat) (bd : String) (stack : List Frame) (n : Nat) (hn : 0 < n)
    (hbd : bd = "uint8" ∨ bd = "uint16") :
    ∃ st' : SplitterState,
      lifGetFramesAndMetadata st sh ic bd stack n = Except.ok st'
      ∧ st'.frames_meta
          = some (lifFramesMeta st.int2str_len st.file_format n)
      ∧ (∀ i, i < n →
          (lifFramesMeta st.int2str_len st.file_format n)[i]?
            = some (lifMetaRow st.int2str_len st.file_format i))
      ∧ (∀ i, (lifMetaRow st.int2str_len st.file_format i).channel_idx = 0
          ∧ (lifMetaRow st.int2str_len st.file_format i).slice_idx = 0
          ∧ (lifMetaRow st.int2str_len st.file_format i).time_idx = 0
          ∧ (lifMetaRow st.int2str_len st.file_format i).pos_idx = i)
      ∧ ∃ gm : GlobalMeta, st'.global_meta = some gm
          ∧ gmLookup gm "nbr_positions" = some (some (GVal.n n))
          ∧ gmLookup gm "nbr_channels" = some (some (GVal.n 1))
          ∧ gmLookup gm "nbr_slices" = some (some (GVal.n 1))
          ∧ gmLookup gm "nbr_timepoints" = some (some (GVal.n 1)) := by
  have hp : ((lifFramesMeta st.int2str_len st.file_format n).map
      FrameRow.pos_idx).dedup.length = n := by
    rw [lifFramesMeta_map_pos, List.Nodup.dedup (List.nodup_range n),
      List.length_range]
  have hc : ((lifFramesMeta st.int2str_len st.file_format n).map
      FrameRow.channel_idx).dedup.length = 1 := by
    rw [lifFramesMeta_map_channel, List.replicate_dedup hn.ne']
    rfl
  have hs : ((lifFramesMeta st.int2str_len st.file_format n).map
      FrameRow.slice_idx).dedup.length = 1 := by
    rw [lifFramesMeta_map_slice, List.replicate_dedup hn.ne']
    rfl
  have ht : ((lifFramesMeta st.int2str_len st.file_format n).map
      FrameRow.time_idx).dedup.length = 1 := by
    rw [lifFramesMeta_map_time, List.replicate_dedup hn.ne']
    rfl
  refine ⟨{ st with
      im_colors := some ic
      frame_shape := some sh
      bit_depth := some bd
      im_stack := some stack
      global_json := some [("file_origin", some (GVal.s st.data_path))]
      frames_meta := some (lifFramesMeta st.int2str_len st.file_format n)
      frames_json := some (List.replicate n [])
      global_meta := some (buildGlobalMeta st.s3_dir n sh (some ic)
        (some bd) (lifFramesMeta st.int2str_len st.file_format n)) },
    ?_, rfl, ?_, fun i => ⟨rfl, rfl, rfl, rfl⟩, ?_⟩
  · rcases hbd with h | h <;> (subst h; rfl)
  · intro i hi
    rw [lifFramesMeta, List.getElem?_map, List.getElem?_range hi]
    rfl
  · refine ⟨buildGlobalMeta st.s3_dir n sh (some ic) (some bd)
      (lifFramesMeta st.int2str_len st.file_format n), rfl, ?_, ?_, ?_, ?_⟩
    · conv_rhs => rw [← hp]
      rfl
    · conv_rhs => rw [← hc]
      rfl
    · conv_rhs => rw [← hs]
      rfl
    · conv_rhs => rw [← ht]
      rfl

/-- The concrete splitter state used to witness C10. -/
def lifSt : SplitterState :=
  initSplitterState "a.lif" "raw_frames/TEST-2005-06-09-20-00-00-1000"
    ".png" 3

/-- Witness for C10: a two-series lif run succeeds. -/
theorem claim_C10_witness :
    isOkE (lifGetFramesAndMetadata lifSt (4, 5) 1 "uint16" [[0], [0]] 2)
      = true := by
  obtain ⟨st', h1, -⟩ :=
    claim_C10_lif_index_assignment lifSt (4, 5) 1 "uint16" [[0], [0]] 2
      (by decide) (Or.inr rfl)
  rw [h1]
  rfl

/-- Every string is a prefix of itself. -/
theorem strHasPfx_refl (s : String) : strHasPfx s s = true := by
  unfold strHasPfx
  exact List.isPrefixOf_iff_prefix.mpr (List.prefix_refl _)

/-- After a put, the stored key is listed. -/
theorem keyCount_putObject_self (s3 : S3) (k : String) (b : Bytes) :
    keyCount (putObject s3 k b) k ≠ 0 := by
  unfold putObject keyCount
  by_cases h : s3.any (fun kv => kv.1 = k)
  · rw [if_pos h]
    obtain ⟨kv, hmem, hk⟩ := List.any_eq_true.mp h
    rw [List.countP_map]
    have hpos : 0 < List.countP
        ((fun kv => strHasPfx k kv.1) ∘
          (fun kv : String × Bytes => if kv.1 = k then (k, b) else kv)) s3 := by
      refine List.countP_pos_iff.mpr ⟨kv, hmem, ?_⟩
      have hk' : kv.1 = k := of_decide_eq_true hk
      simp [Function.comp, hk', strHasPfx_refl]
    exact hpos.ne'
  · rw [if_neg h, List.countP_cons]
    simp [strHasPfx_refl]

/-- A put never removes listed keys: the count of any prefix does not
decrease. -/
theorem keyCount_le_putObject (s3 : S3) (k : String) (b : Bytes)
    (p : String) : keyCount s3 p ≤ keyCount (putObject s3 k b) p := by
  unfold putObject keyCount
  by_cases h : s3.any (fun kv => kv.1 = k)
  · rw [if_pos h, List.countP_map]
    refine Nat.le_of_eq (List.countP_congr ?_).symm
    intro kv _
    by_cases hk : kv.1 = k
    · simp [Function.comp, hk]
    · simp [Function.comp, hk]
  · rw [if_neg h, List.countP_cons]
    exact Nat.le_add_right _ _

/-- One upload step never removes listed keys. -/
theorem keyCount_le_uploadOne (ser : Frame → Bytes)
    (putFails : String → Bool) (s3 : S3) (key : String) (im : Frame)
    (p : String) : keyCount s3 p ≤ keyCount (uploadOne ser putFails s3 key im) p := by
  unfold uploadOne
  by_cases h0 : keyCount s3 key ≠ 0
  · rw [if_pos h0]
  · rw [if_neg h0]
    by_cases hf : putFails key = true
    · rw [if_pos hf]
    · rw [if_neg hf]
      exact keyCount_le_putObject s3 key (ser im) p

/-- After one upload step with a reliable put, the item's key is listed. -/
theorem keyCount_uploadOne_self (ser : Frame → Bytes)
    (putFails : String → Bool) (s3 : S3) (key : String) (im : Frame)
    (hpf : putFails key = false) :
    keyCount (uploadOne ser putFails s3 key im) key ≠ 0 := by
  unfold uploadOne
  by_cases h0 : keyCount s3 key ≠ 0
  · rw [if_pos h0]
    exact h0
  · rw [if_neg h0, if_neg (by simp [hpf])]
    exact keyCount_putObject_self s3 key (ser im)

/-- The upload loop never removes listed keys. -/
theorem keyCount_le_uploadLoop (ser : Frame → Bytes)
    (putFails : String → Bool) (folderName : String) (p : String) :
    ∀ (items : List (String × Frame)) (s3 : S3),
      keyCount s3 p ≤ keyCount (uploadLoop ser putFails folderName s3 items) p := by
  intro items
  induction items with
  | nil => intro s3; exact Nat.le_refl _
  | cons it rest ih =>
    intro s3
    calc keyCount s3 p
        ≤ keyCount (uploadOne ser putFails s3
            (folderName ++ "/" ++ it.1) it.2) p :=
          keyCount_le_uploadOne _ _ _ _ _ _
      _ ≤ _ := ih _

/-- With reliable puts, after the upload loop every processed item's key is
listed (it was either already there or has just been put). -/
theorem keyCount_uploadLoop_all (ser : Frame → Bytes)
    (putFails : String → Bool) (folderName : String)
    (hpf : ∀ k, putFails k = false) :
    ∀ (items : List (String × Frame)) (s3 : S3), ∀ it ∈ items,
      keyCount (uploadLoop ser putFails folderName s3 items)
        (folderName ++ "/" ++ it.1) ≠ 0 := by
  intro items
  induction items with
  | nil => intro s3 it hit; cases hit
  | cons hd rest ih =>
    intro s3 it hit
    rcases List.mem_cons.mp hit with heq | hmem
    · subst heq
      have h1 := keyCount_uploadOne_self ser putFails s3
        (folderName ++ "/" ++ it.1) it.2 (hpf _)
      have h2 := keyCount_le_uploadLoop ser putFails folderName
        (folderName ++ "/" ++ it.1) rest
        (uploadOne ser putFails s3 (folderName ++ "/" ++ it.1) it.2)
      unfold uploadLoop
      exact (Nat.lt_of_lt_of_le (Nat.pos_of_ne_zero h1) h2).ne'
    · exact ih _ it hmem

/-- When every item's key is already listed, the upload loop is a no-op:
each per-key put is skipped. -/
theorem uploadLoop_noop (ser : Frame → Bytes) (putFails : String → Bool)
    (folderName : String) :
    ∀ (items : List (String × Frame)) (s3 : S3),
      (∀ it ∈ items, keyCount s3 (folderName ++ "/" ++ it.1) ≠ 0) →
      uploadLoop ser putFails folderName s3 items = s3 := by
  intro items
  induction items with
  | nil => intro s3 _; rfl
  | cons hd rest ih =>
    intro s3 hall
    unfold uploadLoop uploadOne
    rw [if_pos (hall hd (List.mem_cons_self hd rest))]
    exact ih s3 (fun it hit => hall it (List.mem_cons_of_mem hd hit))

/-- After a caught insert the serial is present (it either already was, or
the insert committed it). -/
theorem insertFramesCaught_any (cat : Catalog) (s : String)
    (gm : GlobalMeta) (rows : List FrameRow) :
    (insertFramesCaught cat s gm rows).any
      (fun e => e.dataset_serial = s) = true := by
  unfold insertFramesCaught insertFrames
  by_cases h : cat.any (fun e => e.dataset_serial = s)
  · rw [if_pos h]
    exact h
  · rw [if_neg h]
    simp

/-- When the serial is already present, `insert_frames` raises, the session
rolls back, and the catalog is unchanged. -/
theorem insertFramesCaught_of_any (cat : Catalog) (s : String)
    (gm : GlobalMeta) (rows : List FrameRow)
    (h : cat.any (fun e => e.dataset_serial = s) = true) :
    insertFramesCaught cat s gm rows = cat := by
  unfold insertFramesCaught insertFrames
  rw [if_pos h]

/-- Inversion of a successful frames-path row: the event list is the plane
puts followed by the single catalog insert, and the resulting catalog is
exactly the caught insert over the starting catalog. -/
theorem processFramesRow_ok_inv (ser : Frame → Bytes)
    (putFails : String → Bool) (overwrite : Bool) (row : UploadRow)
    (src : SourceData) (st st' : PipelineState) (evs : List Event)
    (hok : processFramesRow ser putFails overwrite row src st
      = Except.ok (st', evs)) :
    evs = src.fileNames.map (fun f =>
        Event.putPlane ("raw_frames/" ++ row.dataset_id ++ "/" ++ f))
      ++ [Event.insertRows row.dataset_id]
    ∧ st'.cat = insertFramesCaught st.cat row.dataset_id src.globalMeta
        src.framesMeta := by
  unfold processFramesRow at hok
  cases hv : validateId row.dataset_id with
  | error e => rw [hv] at hok; exact absurd hok (by simp)
  | ok u =>
    rw [hv] at hok
    simp only [] at hok
    cases hdb : (if overwrite then Except.ok ()
        else dbAssertUniqueId st.cat row.dataset_id) with
    | error e => rw [hdb] at hok; exact absurd hok (by simp)
    | ok u2 =>
      rw [hdb] at hok
      simp only [] at hok
      cases hmk : mkFileSplitter st.s3 row.file_name
          ("raw_frames/" ++ row.dataset_id) ".png" 3 overwrite with
      | error e => rw [hmk] at hok; exact absurd hok (by simp)
      | ok sp =>
        rw [hmk] at hok
        simp only [] at hok
        cases hup : uploadFrames ser putFails st.s3
            ("raw_frames/" ++ row.dataset_id) src.fileNames src.stack with
        | error e => rw [hup] at hok; exact absurd hok (by simp)
        | ok s3' =>
          rw [hup] at hok
          simp only [Except.ok.injEq, Prod.mk.injEq] at hok
          obtain ⟨hst, hevs⟩ := hok
          refine ⟨hevs.symm, ?_⟩
          rw [← hst]

/-- Claim C2: on every successful frames-path ingestion the catalog insert
is the last effect — every plane put precedes it — and an error inside the
catalog insert rolls the transaction back, leaving the catalog unchanged,
so no partial catalog row is committed. -/
theorem claim_C2_ordering_barrier (ser : Frame → Bytes)
    (putFails : String → Bool) (overwrite : Bool) (row : UploadRow)
    (src : SourceData) (st st' : PipelineState) (evs : List Event)
    (hok : processFramesRow ser putFails overwrite row src st
      = Except.ok (st', evs)) :
    (evs = src.fileNames.map (fun f =>
        Event.putPlane ("raw_frames/" ++ row.dataset_id ++ "/" ++ f))
      ++ [Event.insertRows row.dataset_id])
    ∧ evs.getLast? = some (Event.insertRows row.dataset_id)
    ∧ (∀ e ∈ evs.dropLast, ∃ k, e = Event.putPlane k)
    ∧ (∀ msg, insertFrames st.cat row.dataset_id src.globalMeta
          src.framesMeta = Except.error msg →
        st'.cat = st.cat) := by
  obtain ⟨hevs, hcat⟩ := processFramesRow_ok_inv ser putFails overwrite row
    src st st' evs hok
  refine ⟨hevs, ?_, ?_, ?_⟩
  · rw [hevs, List.getLast?_concat]
  · rw [hevs, List.dropLast_concat]
    intro e he
    obtain ⟨f, -, hf⟩ := List.mem_map.mp he
    exact ⟨_, hf.symm⟩
  · intro msg hmsg
    rw [hcat]
    unfold insertFramesCaught
    rw [hmsg]

/-- Witness for C2: a successful one-plane run at a concrete serial ends
with the catalog insert as its last event. -/
theorem claim_C2_witness :
    ([Event.putPlane "raw_frames/TEST-2005-06-09-20-00-00-1000/a.png",
      Event.insertRows "TEST-2005-06-09-20-00-00-1000"]).getLast?
      = some (Event.insertRows "TEST-2005-06-09-20-00-00-1000") := by
  have h := claim_C2_ordering_barrier (fun f => f) (fun _ => false) true
    ⟨"TEST-2005-06-09-20-00-00-1000", "data/a.tif"⟩
    ⟨["a.png"], [[7]], [⟨0, 0, 0, 0, none, "a.png"⟩], []⟩
    ⟨[], []⟩
    ⟨[("raw_frames/TEST-2005-06-09-20-00-00-1000/a.png", [7])],
      [⟨"TEST-2005-06-09-20-00-00-1000", [],
        [⟨0, 0, 0, 0, none, "a.png"⟩]⟩]⟩
    [Event.putPlane "raw_frames/TEST-2005-06-09-20-00-00-1000/a.png",
      Event.insertRows "TEST-2005-06-09-20-00-00-1000"]
    rfl
  exact h.2.1

/-- Counterexample to claim C3 as stated: a batch whose first row has an
invalid dataset id aborts the whole run with a raised error — the second,
valid row is never processed, instead of being processed after the bad row
is skipped. -/
theorem claim_C3_counterexample :
    uploadBatch (fun f => f) (fun _ => false) false
        [(⟨"BAD_ID", "a.tif"⟩,
          ⟨["a.png"], [[7]], [⟨0, 0, 0, 0, none, "a.png"⟩], []⟩),
         (⟨"TEST-2005-06-09-20-00-00-1000", "a.tif"⟩,
          ⟨["a.png"], [[7]], [⟨0, 0, 0, 0, none, "a.png"⟩], []⟩)]
        ⟨[], []⟩
      = Except.error "Invalid ID: BAD_ID" := rfl

/-- Claim C3 as amended: an invalid-id failure, or a duplicate-id failure
with `overwrite=false`, on a batch row is surfaced by raising, which
aborts the entire batch run at that row — neither that row nor any later
row is processed. -/
theorem claim_C3_amended (ser : Frame → Bytes) (putFails : String → Bool)
    (overwrite : Bool) (row : UploadRow) (src : SourceData)
    (rest : List (UploadRow × SourceData)) (st : PipelineState)
    (h : (∃ e, validateId row.dataset_id = Except.error e)
      ∨ (overwrite = false
          ∧ st.cat.any (fun en => en.dataset_serial = row.dataset_id)
              = true)) :
    isOkE (uploadBatch ser putFails overwrite ((row, src) :: rest) st)
      = false := by
  have hrow : ∃ e, processFramesRow ser putFails overwrite row src st
      = Except.error e := by
    rcases h with ⟨e, he⟩ | ⟨how, hany⟩
    · refine ⟨e, ?_⟩
      unfold processFramesRow
      rw [he]
    · cases hv : validateId row.dataset_id with
      | error e =>
        refine ⟨e, ?_⟩
        unfold processFramesRow
        rw [hv]
      | ok u =>
        refine ⟨"Dataset already exists in database: " ++ row.dataset_id, ?_⟩
        unfold processFramesRow
        rw [hv]
        subst how
        simp [dbAssertUniqueId, hany]
  obtain ⟨e, he⟩ := hrow
  unfold uploadBatch
  rw [he]
  rfl

/-- Witness for the amended C3: a single-row batch with an invalid id
aborts. -/
theorem claim_C3_amended_witness :
    isOkE (uploadBatch (fun f => f) (fun _ => false) false
        [(⟨"BAD_ID", "b.tif"⟩,
          ⟨["b.png"], [[1]], [⟨0, 0, 0, 0, none, "b.png"⟩], []⟩)]
        ⟨[], []⟩) = false :=
  claim_C3_amended _ _ _ _ _ _ _ (Or.inl ⟨"Invalid ID: BAD_ID", rfl⟩)

/-- Counterexample to claim C1 as stated: under `overwrite=true` a per-key
put does not overwrite the existing stored object — the pre-existing bytes
`[1, 2, 3]` survive the upload of a plane that serializes to `[9]`. -/
theorem claim_C1_counterexample :
    uploadFrames (fun f => f) (fun _ => false)
        [("raw_frames/X/a.png", [1, 2, 3])] "raw_frames/X" ["a.png"] [[9]]
      = Except.ok [("raw_frames/X/a.png", [1, 2, 3])]
    ∧ ([9] : Bytes) ≠ [1, 2, 3] :=
  ⟨rfl, by decide⟩

/-- Claim C1 as amended: with `overwrite=true` the uniqueness checks are
skipped and each per-key put is attempted only for keys not yet present —
existing stored objects are silently kept, not overwritten.  Two
successive frames ingestions of the same source both succeed, and the
second changes nothing: FramesGlobal metadata, the Frames row set and the
stored plane bytes are identical after the two runs. -/
theorem claim_C1_amended (ser : Frame → Bytes) (putFails : String → Bool)
    (hpf : ∀ k, putFails k = false) (row : UploadRow) (src : SourceData)
    (st : PipelineState)
    (hval : validateId row.dataset_id = Except.ok ())
    (hlen : src.fileNames.length = src.stack.length) :
    ∃ (st1 st2 : PipelineState) (evs1 evs2 : List Event),
      processFramesRow ser putFails true row src st = Except.ok (st1, evs1)
      ∧ processFramesRow ser putFails true row src st1
          = Except.ok (st2, evs2)
      ∧ st2 = st1 := by
  have hzip : ∀ f ∈ src.fileNames.zip src.stack, f.1 ∈ src.fileNames :=
    fun f hf => (List.of_mem_zip hf).1
  refine ⟨⟨uploadLoop ser putFails ("raw_frames/" ++ row.dataset_id) st.s3
      (src.fileNames.zip src.stack),
      insertFramesCaught st.cat row.dataset_id src.globalMeta
        src.framesMeta⟩,
    ⟨uploadLoop ser putFails ("raw_frames/" ++ row.dataset_id) st.s3
      (src.fileNames.zip src.stack),
      insertFramesCaught st.cat row.dataset_id src.globalMeta
        src.framesMeta⟩,
    src.fileNames.map (fun f =>
      Event.putPlane ("raw_frames/" ++ row.dataset_id ++ "/" ++ f))
      ++ [Event.insertRows row.dataset_id],
    src.fileNames.map (fun f =>
      Event.putPlane ("raw_frames/" ++ row.dataset_id ++ "/" ++ f))
      ++ [Event.insertRows row.dataset_id],
    ?_, ?_, rfl⟩
  · unfold processFramesRow mkFileSplitter uploadFrames
    rw [hval]
    simp only [if_true]
    rw [if_pos hlen]
  · have hnoop : uploadLoop ser putFails ("raw_frames/" ++ row.dataset_id)
        (uploadLoop ser putFails ("raw_frames/" ++ row.dataset_id) st.s3
          (src.fileNames.zip src.stack))
        (src.fileNames.zip src.stack)
        = uploadLoop ser putFails ("raw_frames/" ++ row.dataset_id) st.s3
            (src.fileNames.zip src.stack) :=
      uploadLoop_noop ser putFails ("raw_frames/" ++ row.dataset_id)
        (src.fileNames.zip src.stack) _
        (fun it hit => keyCount_uploadLoop_all ser putFails
          ("raw_frames/" ++ row.dataset_id) hpf
          (src.fileNames.zip src.stack) st.s3 it hit)
    have hcat : insertFramesCaught
        (insertFramesCaught st.cat row.dataset_id src.globalMeta
          src.framesMeta)
        row.dataset_id src.globalMeta src.framesMeta
        = insertFramesCaught st.cat row.dataset_id src.globalMeta
            src.framesMeta :=
      insertFramesCaught_of_any _ _ _ _
        (insertFramesCaught_any st.cat row.dataset_id src.globalMeta
          src.framesMeta)
    unfold processFramesRow mkFileSplitter uploadFrames
    rw [hval]
    simp only [if_true]
    rw [if_pos hlen]
    rw [hnoop, hcat]

/-- Witness for the amended C1: a concrete one-plane dataset ingested twice
with `overwrite=true`. -/
theorem claim_C1_amended_witness :
    ∃ (st1 st2 : PipelineState) (evs1 evs2 : List Event),
      processFramesRow (fun f => f) (fun _ => false) true
          ⟨"TEST-2005-06-09-20-00-00-1000", "data/a.tif"⟩
          ⟨["a.png"], [[7]], [⟨0, 0, 0, 0, none, "a.png"⟩], []⟩ ⟨[], []⟩
        = Except.ok (st1, evs1)
      ∧ processFramesRow (fun f => f) (fun _ => false) true
          ⟨"TEST-2005-06-09-20-00-00-1000", "data/a.tif"⟩
          ⟨["a.png"], [[7]], [⟨0, 0, 0, 0, none, "a.png"⟩], []⟩ st1
        = Except.ok (st2, evs2)
      ∧ st2 = st1 :=
  claim_C1_amended _ _ (fun _ => rfl) _ _ _ rfl rfl

end ImagingDB
